import Mathlib

/-!
Verification development for the libre_clinica_upload repository.

This file gives a shallow embedding of the two source files
`libre_clinica_request_github.py` and `query_engine_libre_clinica_github.py`
and proves theorems about the embedded definitions.

Modelling conventions:
  * Remote services (the SOAP endpoints and the HTTP data endpoint) are pure
    environments supplying the responses the Python code would receive; every
    outgoing call is recorded in an event trace (`Ev`).
  * Python values flowing through dataframe rows are modelled by `PyVal`
    (None, NaN, strings and ints).
  * `sys.exit(c)`, `NameError` (reading an unset module-level global) and a
    completed run are the three constructors of `BatchResult`.
  * Logging calls have no observable effect and are not modelled.
  * The Python field `item_prefix` is rendered here as `item_pref`.
-/

/-- A Python value as it occurs in a dataframe cell of the upload script:
`None`, a missing marker (`numpy.nan` / `pandas.NA`), a string, or an int. -/
inductive PyVal
  | vNone
  | vNaN
  | vStr (s : String)
  | vInt (n : Int)
deriving DecidableEq

/-- Events recording the outgoing remote calls of the upload script, with the
data each call carries.  `check`/`create` are the `isStudySubject`/`create`
SOAP calls of `get_lc_ss_oid`; `schedule` is the event-scheduling SOAP call;
`submit` is the HTTP POST of the ODM upsert payload (its fields are the data
interpolated into the payload: study OID, event OID, form OID, item-group
OID, the SubjectKey, the item list, and the subject label). -/
inductive Ev
  | sparqlQuery (q : String)
  | check (studyId : String) (label : PyVal)
  | create (studyId : String) (label : PyVal) (gender : PyVal) (enrollDate : String)
  | schedule (studyId : String) (label : PyVal) (eventOid : String)
  | submit (studyOid eventOid formOid itemGroupOid : String)
      (subjectKey : String) (items : List (String × String)) (label : PyVal)
deriving DecidableEq

/-- Response of the `isStudySubject` SOAP call: the `result` string and the
text of the raw element carrying the OID when the subject exists. -/
structure CheckResp where
  result : String
  oidText : String
deriving DecidableEq

/-- Response of the `create` SOAP call: the `result` string and the `error`
string delivered on failure. -/
structure CreateResp where
  result : String
  error : String
deriving DecidableEq

/-- Gender normalization at create time, from line 92 of
`libre_clinica_request_github.py`:
`"m" if ss_gender == 1 else "f" if ss_gender == 2 else ss_gender`.
Python `==` against the int literals only holds for `vInt 1` / `vInt 2`. -/
def normGender (g : PyVal) : PyVal :=
  if g = PyVal.vInt 1 then PyVal.vStr "m"
  else if g = PyVal.vInt 2 then PyVal.vStr "f"
  else g

/-- Embedding of `get_lc_ss_oid` (lines 21-117).  The remote behaviour is an
environment: `checkResp b` is the response the `isStudySubject` call receives
in the activation whose `rerun` flag is `b`, and `createResp` the response of
the `create` call.  `today` stands for `datetime.datetime.now` formatted as
`%Y-%m-%d`.  Returns the OID string (empty when not available) together with
the trace of SOAP calls made by the whole call chain. -/
def get_lc_ss_oid (checkResp : Bool → CheckResp) (createResp : CreateResp)
    (study_identifier : String) (ss_label ss_gender : PyVal) (today : String)
    (rerun : Bool) : String × List Ev :=
  let ret := checkResp rerun
  if ret.result = "Success" then
    -- found: return the OID from the raw element of the response
    (ret.oidText, [Ev.check study_identifier ss_label])
  else if _h : rerun = false then
    -- create the study subject, normalizing the gender value
    let g := normGender ss_gender
    if createResp.result = "Success" then
      -- rerun recursively to fetch the OID that create does not return
      let r := get_lc_ss_oid checkResp createResp study_identifier ss_label
        ss_gender today true
      (r.1, Ev.check study_identifier ss_label ::
        Ev.create study_identifier ss_label g today :: r.2)
    else
      ("", [Ev.check study_identifier ss_label,
            Ev.create study_identifier ss_label g today])
  else
    -- created earlier in this chain but the OID is still not available
    ("", [Ev.check study_identifier ss_label])
termination_by (if rerun then 0 else 1)
decreasing_by simp_all

/-- Count of `check` events in a trace. -/
def countCheck (l : List Ev) : Nat :=
  l.countP (fun e => match e with | Ev.check _ _ => true | _ => false)

/-- Count of `create` events in a trace. -/
def countCreate (l : List Ev) : Nat :=
  l.countP (fun e => match e with | Ev.create _ _ _ _ => true | _ => false)

/-- Whether the character list `n` is an initial segment of `l`. -/
def charsStartWith : List Char → List Char → Bool
  | [], _ => true
  | _ :: _, [] => false
  | a :: as, b :: bs => a = b && charsStartWith as bs

/-- Whether the character list `n` occurs contiguously inside `l`. -/
def charsContain (n : List Char) : List Char → Bool
  | [] => charsStartWith n []
  | l@(_ :: rest) => charsStartWith n l || charsContain n rest

/-- Python `needle in hay` on strings: contiguous substring test. -/
def pyInStr (needle hay : String) : Bool :=
  charsContain needle.data hay.data

/-- Model of the external `unidecode` library on a character list: each
character with code point at most 127 is kept, every other character is
replaced by its transliteration `tr c` (the library's per-character
transliteration table, whose output is ASCII text). -/
def unidecodeChars (tr : Char → String) : List Char → List Char
  | [] => []
  | c :: cs =>
    (if c.toNat ≤ 127 then [c] else (tr c).data) ++ unidecodeChars tr cs

/-- Model of the external `unidecode` library on a string. -/
def unidecodeModel (tr : Char → String) (s : String) : String :=
  String.mk (unidecodeChars tr s.data)

/-- The per-value text treatment of lines 255-257 of
`libre_clinica_request_github.py`: a string cell is passed through
`unidecode` exactly when it contains a character with code point above 127
(the constant `ascii_range = 127`), and is used unchanged otherwise. -/
def processedText (unidec : String → String) (s : String) : String :=
  if s.data.any (fun c => 127 < c.toNat) then unidec s else s

/-- A dataframe row of the upload script: an association list from column
name to Python value (`row[name]`). -/
def RowData := List (String × PyVal)

/-- Python `row[name]`.  A name missing from the row would raise `KeyError`
in pandas; the claims never exercise that case and the lookup defaults to
`None` here. -/
def rowGetPy (row : RowData) (name : String) : PyVal :=
  (List.lookup name row).getD PyVal.vNone

/-- Rendering of a Python value inside an f-string (`f"...{row[name]}..."`)
after the unidecode treatment of string values. -/
def renderVal (unidec : String → String) : PyVal → String
  | PyVal.vStr s => processedText unidec s
  | PyVal.vInt n => toString n
  | PyVal.vNone => "None"
  | PyVal.vNaN => "nan"

/-- The module-level globals of `libre_clinica_request_github.py` that
`upload_to_lc` reads (they are set only inside the `__main__` block; lines
352-361).  `none` models an unset global, whose read raises `NameError`.
The Python global `item_prefix` is the field `item_pref` here. -/
structure Globals where
  query : Option String
  study_oid : Option String
  study_identifier : Option String
  event_oid : Option String
  form_oid : Option String
  item_group_oid : Option String
  identifier_colname : Option String
  gender_colname : Option String
  item_pref : Option String
deriving DecidableEq

/-- All nine globals are set. -/
def allSetB (g : Globals) : Bool :=
  g.query.isSome && g.study_oid.isSome && g.study_identifier.isSome &&
  g.event_oid.isSome && g.form_oid.isSome && g.item_group_oid.isSome &&
  g.identifier_colname.isSome && g.gender_colname.isSome &&
  (Globals.item_pref g).isSome

/-- The `LCConfig` pydantic model (lines 120-161).  The Python field
`item_prefix` is the field `item_pref` here; `alternative_item_oids` is the
column-rename mapping (the `None` default becomes the empty mapping in
`__init__`). -/
structure LCConfig where
  sparql_endpoint : String
  query : String
  lc_endpoint : String
  lc_user : String
  lc_password : String
  study_oid : String
  study_identifier : String
  event_oid : String
  form_oid : String
  item_group_oid : String
  identifier_colname : String
  gender_colname : String
  item_pref : String
  alternative_item_oids : List (String × String)
  perform_query : Bool
deriving DecidableEq

/-- Outcome of interpreting one submission response (lines 312-327). -/
inductive RecStatus
  | success
  | failedRec (err : String)
  | protocolViolation
deriving DecidableEq

/-- The error branch of response interpretation (lines 320-327):
`error = ret.find_all("error")`; a nonempty list yields a per-record failure
carrying the first error text, an empty list is the fatal case. -/
def interpretErrors : List String → RecStatus
  | e0 :: _ => RecStatus.failedRec e0
  | [] => RecStatus.protocolViolation

/-- Interpretation of a submission response (lines 312-327), given the texts
of the `result` elements and of the `error` elements of the parsed body in
document order: `if len(result) > 0 and "Success" in result[0].text` the
record succeeded, otherwise the error branch runs. -/
def interpretResponse (results errors : List String) : RecStatus :=
  match results with
  | r0 :: _ => if pyInStr "Success" r0 then RecStatus.success
               else interpretErrors errors
  | [] => interpretErrors errors

/-- The item list of lines 250-258, as (ItemOID, Value) attribute pairs in
column order, for a known `item_prefix` value `pref`: columns equal to the
identifier column are skipped, cells that are `None` or fail `pd.notna` are
skipped, string cells go through the unidecode treatment. -/
def buildItemsOk (idc pref : String) (unidec : String → String) (row : RowData) :
    List String → List (String × String)
  | [] => []
  | name :: rest =>
    if name = idc then buildItemsOk idc pref unidec row rest
    else
      match rowGetPy row name with
      | PyVal.vNone => buildItemsOk idc pref unidec row rest
      | PyVal.vNaN => buildItemsOk idc pref unidec row rest
      | PyVal.vStr s =>
          (pref ++ name, processedText unidec s) :: buildItemsOk idc pref unidec row rest
      | PyVal.vInt n =>
          (pref ++ name, toString n) :: buildItemsOk idc pref unidec row rest

/-- The item loop of lines 250-258 with the read of the global `item_prefix`
made explicit: the global is only read when an item is actually emitted, and
reading it unset raises `NameError` (the `Except.error` carries the name of
the missing global). -/
def buildItems (idc : String) (prefOpt : Option String) (unidec : String → String)
    (row : RowData) : List String → Except String (List (String × String))
  | [] => Except.ok []
  | name :: rest =>
    if name = idc then buildItems idc prefOpt unidec row rest
    else
      match rowGetPy row name, prefOpt with
      | PyVal.vNone, _ => buildItems idc prefOpt unidec row rest
      | PyVal.vNaN, _ => buildItems idc prefOpt unidec row rest
      | PyVal.vStr _, none => Except.error "item_prefix"
      | PyVal.vInt _, none => Except.error "item_prefix"
      | PyVal.vStr s, some pref =>
          (fun l => (pref ++ name, processedText unidec s) :: l) <$>
            buildItems idc prefOpt unidec row rest
      | PyVal.vInt n, some pref =>
          (fun l => (pref ++ name, toString n) :: l) <$>
            buildItems idc prefOpt unidec row rest

/-- Remote responses received while processing one record: the two possible
`isStudySubject` responses and the `create` response for `get_lc_ss_oid`,
the scheduling response, and the texts of the `result` and `error` elements
of the submission response body.  `scheduleResult`/`scheduleError` only feed
a log line in the source (lines 243-246) and have no other effect. -/
structure RecordEnv where
  checkResp : Bool → CheckResp
  createResp : CreateResp
  scheduleResult : String
  scheduleError : String
  submitResults : List String
  submitErrors : List String

/-- Result of processing one record: either a response interpretation
(together with the subject label used for the failure log) or a `NameError`
on the named global. -/
inductive StepRes
  | ok (label : PyVal) (st : RecStatus)
  | nameErr (v : String)
deriving DecidableEq

/-- One iteration of the subject loop of `upload_to_lc` (lines 212-329),
with every read of a module-level global made explicit in source order:
`identifier_colname` (line 214), `study_identifier` (keyword argument of the
`get_lc_ss_oid` call, line 222), `gender_colname` (line 224), `event_oid`
(event dict, line 232), `item_prefix` (inside the item loop, line 258),
`form_oid` and `item_group_oid` (subject XML, lines 264-265), `study_oid`
(submit payload, line 290).  The schedule response only feeds a warning log
and has no further effect.  Returns the record outcome and the trace of
remote calls made for this record. -/
def processRecord (g : Globals) (today : String) (unidec : String → String)
    (cols : List String) (row : RowData) (renv : RecordEnv) : StepRes × List Ev :=
  match g.identifier_colname with
  | none => (StepRes.nameErr "identifier_colname", [])
  | some idc =>
    let ss_label := rowGetPy row idc
    match g.study_identifier with
    | none => (StepRes.nameErr "study_identifier", [])
    | some studyId =>
      match g.gender_colname with
      | none => (StepRes.nameErr "gender_colname", [])
      | some gcol =>
        let r := get_lc_ss_oid renv.checkResp renv.createResp studyId ss_label
          (rowGetPy row gcol) today false
        match g.event_oid with
        | none => (StepRes.nameErr "event_oid", r.2)
        | some eventOid =>
          let evs1 := r.2 ++ [Ev.schedule studyId ss_label eventOid]
          match buildItems idc (Globals.item_pref g) unidec row cols with
          | Except.error v => (StepRes.nameErr v, evs1)
          | Except.ok items =>
            match g.form_oid with
            | none => (StepRes.nameErr "form_oid", evs1)
            | some formOid =>
              match g.item_group_oid with
              | none => (StepRes.nameErr "item_group_oid", evs1)
              | some igOid =>
                match g.study_oid with
                | none => (StepRes.nameErr "study_oid", evs1)
                | some studyOid =>
                  let evs2 := evs1 ++
                    [Ev.submit studyOid eventOid formOid igOid r.1 items ss_label]
                  (StepRes.ok ss_label
                    (interpretResponse renv.submitResults renv.submitErrors), evs2)

/-- How the subject loop ended. -/
inductive LoopOut
  | completedLoop
  | abortedRun
  | nameErrored (v : String)
deriving DecidableEq

/-- Result of the subject loop: the accumulated `failed_subjects` list (as
label/error pairs, in order), the concatenated event trace, and how the loop
ended. -/
structure LoopResult where
  failed : List (PyVal × String)
  events : List Ev
  out : LoopOut
deriving DecidableEq

/-- The subject loop of `upload_to_lc` (lines 209-329).  `renvs k` is the
remote behaviour observed while processing the record with index `k`.  A
success response appends nothing; a recognized error response appends the
label/error pair to `failed_subjects` and continues; a response with neither
marker calls `sys.exit(1)`, dropping the remaining records. -/
def runRecords (g : Globals) (today : String) (unidec : String → String)
    (cols : List String) (renvs : Nat → RecordEnv) :
    Nat → List RowData → LoopResult
  | _, [] => ⟨[], [], LoopOut.completedLoop⟩
  | idx, row :: rest =>
    let pr := processRecord g today unidec cols row (renvs idx)
    match pr.1 with
    | StepRes.nameErr v => ⟨[], pr.2, LoopOut.nameErrored v⟩
    | StepRes.ok _ RecStatus.success =>
      let r := runRecords g today unidec cols renvs (idx + 1) rest
      ⟨r.failed, pr.2 ++ r.events, r.out⟩
    | StepRes.ok lbl (RecStatus.failedRec e) =>
      let r := runRecords g today unidec cols renvs (idx + 1) rest
      ⟨(lbl, e) :: r.failed, pr.2 ++ r.events, r.out⟩
    | StepRes.ok _ RecStatus.protocolViolation => ⟨[], pr.2, LoopOut.abortedRun⟩

/-- The dataframe returned by the query step, as consumed by the subject
loop: column names and rows (each row an association list over the column
names). -/
structure SparqlDF where
  cols : List String
  rows : List RowData

/-- The environment of one `upload_to_lc` run: the materialized query result,
the per-record remote behaviour, today's date string, and the external
`unidecode` function. -/
structure BatchEnv where
  df : SparqlDF
  renvs : Nat → RecordEnv
  today : String
  unidec : String → String

/-- Observable outcome of `upload_to_lc`: a `sys.exit` with the given code, a
`NameError` on the named unset global, or a completed run with its final
summary data (`len(df_sparql)` and `failed_subjects`). -/
inductive BatchResult
  | exitCode (c : Nat)
  | nameError (v : String)
  | summary (expected : Nat) (failed : List (PyVal × String))
deriving DecidableEq

/-- Column rename through `alternative_item_oids`
(`df_sparql.rename(columns=config.alternative_item_oids)`, line 191). -/
def appRename (m : List (String × String)) (c : String) : String :=
  (List.lookup c m).getD c

/-- Embedding of `upload_to_lc` (lines 164-335).  Reads the configuration
argument only for `perform_query` and `alternative_item_oids` (plus the
fields interpolated into credentials/endpoints, which carry no observable
data here); every other parameter comes from the module-level globals `g`,
exactly as in the source.  Returns the run outcome and the full trace of
remote calls. -/
def upload_to_lc (g : Globals) (config : LCConfig) (env : BatchEnv) :
    BatchResult × List Ev :=
  if !config.perform_query then
    -- lines 172-177: sys.exit(0)
    (BatchResult.exitCode 0, [])
  else
    match g.query with
    | none => (BatchResult.nameError "query", [])
    | some q =>
      let evQ := Ev.sparqlQuery q
      if env.df.rows.length = 0 then
        -- lines 183-188: sys.exit(1)
        (BatchResult.exitCode 1, [evQ])
      else
        let cols := env.df.cols.map (appRename config.alternative_item_oids)
        let rows := env.df.rows.map
          (fun r => r.map (fun kv => (appRename config.alternative_item_oids kv.1, kv.2)))
        let lr := runRecords g env.today env.unidec cols env.renvs 0 rows
        match lr.out with
        | LoopOut.nameErrored v => (BatchResult.nameError v, evQ :: lr.events)
        | LoopOut.abortedRun => (BatchResult.exitCode 1, evQ :: lr.events)
        | LoopOut.completedLoop =>
            (BatchResult.summary rows.length lr.failed, evQ :: lr.events)

/-- One SPARQL result binding (`results.bindings[i][col]`): the `value`,
`type` and `datatype` entries of the JSON object (each possibly absent). -/
structure Binding where
  value : Option String
  btype : Option String
  datatype : Option String
deriving DecidableEq

/-- One row of `results.bindings`: a JSON object mapping column names to
bindings. -/
def SparqlRow := List (String × Binding)

/-- Python `row.get(col, {}).get("value")`. -/
def bindingValue (r : SparqlRow) (c : String) : Option String :=
  match List.lookup c r with
  | some b => b.value
  | none => none

/-- Python `row.get(col, {}).get("type")`. -/
def bindingType (r : SparqlRow) (c : String) : Option String :=
  match List.lookup c r with
  | some b => b.btype
  | none => none

/-- Python `row.get(col, {}).get("datatype")`. -/
def bindingDatatype (r : SparqlRow) (c : String) : Option String :=
  match List.lookup c r with
  | some b => b.datatype
  | none => none

/-- The JSON result of the SPARQL query: `head.vars` and `results.bindings`. -/
structure SparqlResult where
  vars : List String
  bindings : List SparqlRow

/-- The dtype a column of the result dataframe ends up with in
`get_sparql_dataframe`: plain `object` (free text), `category`, nullable
`Int64`, or nullable `Float64`. -/
inductive ColType
  | text
  | categorical
  | int64
  | float64
deriving DecidableEq

def xsdInt : String := "http://www.w3.org/2001/XMLSchema#int"
def xsdInteger : String := "http://www.w3.org/2001/XMLSchema#integer"
def xsdDouble : String := "http://www.w3.org/2001/XMLSchema#double"
def xsdString : String := "http://www.w3.org/2001/XMLSchema#string"

/-- The per-column type decision of `get_sparql_dataframe` (lines 102-113 of
`query_engine_libre_clinica_github.py`), from the `type` and `datatype` of
the first row's binding for the column: `uri` makes the column categorical;
`literal`/`typed-literal` with an integer datatype (`xsd:int`/`xsd:integer`)
makes it Int64, with `xsd:double` Float64, with `xsd:string` categorical;
everything else leaves the column as it was built (object dtype). -/
def inferColType (vt dt : Option String) : ColType :=
  if vt = some "uri" then ColType.categorical
  else if vt = some "literal" ∨ vt = some "typed-literal" then
    if dt = some xsdInt ∨ dt = some xsdInteger then ColType.int64
    else if dt = some xsdDouble then ColType.float64
    else if dt = some xsdString then ColType.categorical
    else ColType.text
  else ColType.text

/-- Column type as decided by the first row of the result. -/
def colTypeOfFirst (firstRow : SparqlRow) (c : String) : ColType :=
  inferColType (bindingType firstRow c) (bindingDatatype firstRow c)

/-- `QueryEngine.convert` (lines 29-48): `None` becomes the missing marker;
otherwise the cast is attempted and a `ValueError` (here: `cast s = none`)
becomes the missing marker.  The result `none` is the explicit missing value
(`np.NaN`, then `pd.NA` after the nullable astype). -/
def convert {α : Type} (cast : String → Option α) : Option String → Option α
  | none => none
  | some s => cast s

/-- A typed cell of the result dataframe. -/
inductive CellVal
  | obj (v : Option String)
  | cat (v : Option String)
  | int64 (v : Option Int)
  | float64 (v : Option Rat)
deriving DecidableEq

/-- Coercion of one raw cell value to its column's type, as performed by the
astype/apply calls of lines 105-113.  `iC`/`fC` model the Python `int` and
`float` builtins (returning `none` where Python raises `ValueError`). -/
def typeCell (iC : String → Option Int) (fC : String → Option Rat)
    (t : ColType) (v : Option String) : CellVal :=
  match t with
  | ColType.text => CellVal.obj v
  | ColType.categorical => CellVal.cat v
  | ColType.int64 => CellVal.int64 (convert iC v)
  | ColType.float64 => CellVal.float64 (convert fC v)

/-- The typed dataframe produced by `get_sparql_dataframe`: column names,
their final dtypes, and the coerced cells (rows of cells in column order). -/
structure TypedDF where
  cols : List String
  colTypes : List ColType
  cells : List (List CellVal)
deriving DecidableEq

/-- Embedding of `QueryEngine.get_sparql_dataframe` (lines 59-115) after the
HTTP exchange: the raw dataframe collects `row.get(col, {}).get("value")`
for every row and column, and when at least one binding row exists the
column dtypes are decided from the first row only and applied to every cell
of the column.  With no binding rows no type inference happens at all and
the columns keep the dtype the empty frame was built with. -/
def get_sparql_dataframe (iC : String → Option Int) (fC : String → Option Rat)
    (res : SparqlResult) : TypedDF :=
  match res.bindings with
  | [] => ⟨res.vars, res.vars.map (fun _ => ColType.text), []⟩
  | firstRow :: _ =>
    ⟨res.vars,
     res.vars.map (fun c => colTypeOfFirst firstRow c),
     res.bindings.map (fun row =>
       res.vars.map (fun c =>
         typeCell iC fC (colTypeOfFirst firstRow c) (bindingValue row c)))⟩

/-- Cell of a typed dataframe at row `j`, column position `i`. -/
def cellAt (tdf : TypedDF) (j i : Nat) : Option CellVal :=
  tdf.cells[j]?.bind (fun r => r[i]?)

/-- Model of the Python `int` builtin on strings: optional surrounding
whitespace, an optional sign, then a nonempty digit string; everything else
raises `ValueError` (`none`).  Only the failure/success split matters for
the claims. -/
def pyDigitsToNat : List Char → Option Nat
  | [] => none
  | ds =>
    if ds.all (fun c => c.isDigit) then
      some (ds.foldl (fun acc c => acc * 10 + (c.toNat - 48)) 0)
    else none

def pySpace (c : Char) : Bool :=
  c = ' ' || c = '\t' || c = '\n' || c = '\r'

def pyIntCast (s : String) : Option Int :=
  let t := ((s.data.dropWhile pySpace).reverse.dropWhile pySpace).reverse
  match t with
  | '-' :: ds => (pyDigitsToNat ds).map (fun n => -(n : Int))
  | '+' :: ds => (pyDigitsToNat ds).map (fun n => (n : Int))
  | ds => (pyDigitsToNat ds).map (fun n => (n : Int))

/-- The events produced by one iteration of the subject loop when all
globals are set: the resolver's SOAP calls, the scheduling call, then the
submission.  Proven equal to the trace of `processRecord` under `allSetB`
(see `processRecord_allSet`). -/
def processRecordEvents (g : Globals) (today : String) (unidec : String → String)
    (cols : List String) (row : RowData) (renv : RecordEnv) : List Ev :=
  let idc := g.identifier_colname.getD ""
  let studyId := g.study_identifier.getD ""
  let ss_label := rowGetPy row idc
  let r := get_lc_ss_oid renv.checkResp renv.createResp studyId ss_label
    (rowGetPy row (g.gender_colname.getD "")) today false
  r.2 ++ [Ev.schedule studyId ss_label (g.event_oid.getD "")] ++
    [Ev.submit (g.study_oid.getD "") (g.event_oid.getD "") (g.form_oid.getD "")
      (g.item_group_oid.getD "") r.1
      (buildItemsOk idc (g.item_pref.getD "") unidec row cols) ss_label]

/-- Modelled from the spec's words, for comparison with the code (claim C1):
the response body "contains a success indicator" when SOME result element's
text contains "Success". -/
def claimSuccessIndicator (results : List String) : Bool :=
  results.any (fun r => pyInStr "Success" r)

/-- Modelled from the spec's words, for comparison with the code (claim C2):
the run "terminates with a non-zero exit status". -/
def exitsWithNonZero (r : BatchResult) : Bool :=
  match r with
  | BatchResult.exitCode c => !(c = 0 : Bool)
  | _ => false

/-! Concrete fixtures used by witness theorems. -/

/-- A fully populated set of module-level globals. -/
def gW : Globals :=
  ⟨some "Q", some "SO", some "SI", some "EO", some "FO", some "IGO",
   some "id", some "gender", some "PRE"⟩

/-- A configuration with the execution gate enabled and no column renames. -/
def cfgW : LCConfig :=
  ⟨"sp", "q", "le", "lu", "lp", "so", "si", "eo", "fo", "igo",
   "ic", "gc", "pf", [], true⟩

/-- Same configuration with the execution gate disabled. -/
def cfgWoff : LCConfig :=
  ⟨"sp", "q", "le", "lu", "lp", "so", "si", "eo", "fo", "igo",
   "ic", "gc", "pf", [], false⟩

/-- A configuration differing from `cfgW` exactly in the nine fields that
`upload_to_lc` shadows with module-level globals. -/
def cfgW2 : LCConfig :=
  ⟨"sp", "OTHER-q", "le", "lu", "lp", "OTHER-so", "OTHER-si", "OTHER-eo",
   "OTHER-fo", "OTHER-igo", "OTHER-ic", "OTHER-gc", "OTHER-pf", [], true⟩

def checkYes : CheckResp := ⟨"Success", "SS_OK"⟩
def checkNo : CheckResp := ⟨"Fail", ""⟩
def createNo : CreateResp := ⟨"Fail", "create failed"⟩

/-- Record environment: subject exists, submission succeeds. -/
def renvOkW : RecordEnv :=
  ⟨fun _ => checkYes, createNo, "Success", "", ["Success"], []⟩

/-- Record environment: subject missing, create fails, submission returns a
recognized error. -/
def renvFailW : RecordEnv :=
  ⟨fun _ => checkNo, createNo, "Fail", "", ["Rejected"], ["err2"]⟩

/-- Record environment: submission response whose first result element lacks
"Success" while a later one contains it, and no error element. -/
def renvNeitherW : RecordEnv :=
  ⟨fun _ => checkYes, createNo, "S", "", ["Rejected", "Great Success"], []⟩

def rW1 : RowData := [("id", PyVal.vStr "P1"), ("gender", PyVal.vInt 1)]
def rW2 : RowData := [("id", PyVal.vStr "P2"), ("gender", PyVal.vInt 2)]
def rW3 : RowData := [("id", PyVal.vStr "P3"), ("gender", PyVal.vStr "x")]

/-- A three-record batch whose second record hits a create failure and a
recognized submission error. -/
def envW3 : BatchEnv :=
  ⟨⟨["id", "gender"], [rW1, rW2, rW3]⟩,
   fun k => if k = 1 then renvFailW else renvOkW, "D", id⟩

/-- A two-record batch whose submission responses carry no "Success" in the
first result element and no error element (while a later result element
does contain "Success"). -/
def envWneither : BatchEnv :=
  ⟨⟨["id", "gender"], [rW1, rW2]⟩, fun _ => renvNeitherW, "D", id⟩

/-- A one-record batch with a successful upload. -/
def envW1 : BatchEnv :=
  ⟨⟨["id", "gender"], [rW1]⟩, fun _ => renvOkW, "D", id⟩

/-- An empty query result. -/
def envWempty : BatchEnv :=
  ⟨⟨["id", "gender"], []⟩, fun _ => renvOkW, "D", id⟩

/-- A SPARQL result with an integer-typed column, a uri column and a
plain-literal column, whose second row carries a non-numeric value and a
different binding kind in the uri column. -/
def resWrow1 : SparqlRow :=
  [("a", ⟨some "5", some "typed-literal", some xsdInt⟩),
   ("b", ⟨some "http://x/1", some "uri", none⟩),
   ("c", ⟨some "t", some "literal", none⟩)]

def resWrow2 : SparqlRow :=
  [("a", ⟨some "oops", some "literal", some xsdInt⟩),
   ("b", ⟨some "7", some "typed-literal", some xsdInt⟩),
   ("c", ⟨some "u", some "uri", none⟩)]

def resW : SparqlResult := ⟨["a", "b", "c"], [resWrow1, resWrow2]⟩

/-! Helper lemmas. -/

/-- With a known `item_prefix` value the item loop never raises and produces
exactly the `buildItemsOk` list. -/
theorem buildItems_eq_ok (idc pref : String) (unidec : String → String)
    (row : RowData) (cols : List String) :
    buildItems idc (some pref) unidec row cols =
      Except.ok (buildItemsOk idc pref unidec row cols) := by
  induction cols with
  | nil => rfl
  | cons name rest ih =>
    by_cases h : name = idc
    · simp [buildItems, buildItemsOk, h, ih]
    · cases hv : rowGetPy row name <;>
        simp [buildItems, buildItemsOk, h, hv, ih, Except.map]

/-- Closed form of the resolver: the bounded recursion of `get_lc_ss_oid`
unrolled, used to evaluate concrete instances. -/
theorem get_lc_ss_oid_closed (cR : Bool → CheckResp) (crR : CreateResp)
    (sid : String) (lbl gen : PyVal) (today : String) (rerun : Bool) :
    get_lc_ss_oid cR crR sid lbl gen today rerun =
      (if (cR rerun).result = "Success" then ((cR rerun).oidText, [Ev.check sid lbl])
       else if rerun then ("", [Ev.check sid lbl])
       else if crR.result = "Success" then
         ((if (cR true).result = "Success" then (cR true).oidText else ""),
          [Ev.check sid lbl, Ev.create sid lbl (normGender gen) today,
           Ev.check sid lbl])
       else ("", [Ev.check sid lbl, Ev.create sid lbl (normGender gen) today])) := by
  cases rerun with
  | true =>
    rw [get_lc_ss_oid]
    by_cases h : (cR true).result = "Success" <;> simp [h]
  | false =>
    rw [get_lc_ss_oid]
    by_cases h : (cR false).result = "Success"
    · simp [h]
    · by_cases h2 : crR.result = "Success"
      · rw [get_lc_ss_oid]
        by_cases h3 : (cR true).result = "Success" <;> simp [h, h2, h3]
      · simp [h, h2]

/-- With every global set, one loop iteration reaches the submission and its
outcome is the interpretation of the submission response; the trace is
`processRecordEvents`. -/
theorem processRecord_allSet (g : Globals) (today : String)
    (unidec : String → String) (cols : List String) (row : RowData)
    (renv : RecordEnv) (h : allSetB g = true) :
    processRecord g today unidec cols row renv =
      (StepRes.ok (rowGetPy row (g.identifier_colname.getD ""))
        (interpretResponse renv.submitResults renv.submitErrors),
       processRecordEvents g today unidec cols row renv) := by
  obtain ⟨q, so, si, eo, fo, igo, ic, gc, ip⟩ := g
  simp only [allSetB, Bool.and_eq_true] at h
  obtain ⟨⟨⟨⟨⟨⟨⟨⟨hq, hso⟩, hsi⟩, heo⟩, hfo⟩, higo⟩, hic⟩, hgc⟩, hip⟩ := h
  rw [Option.isSome_iff_exists] at hq hso hsi heo hfo higo hic hgc hip
  obtain ⟨q, rfl⟩ := hq
  obtain ⟨so, rfl⟩ := hso
  obtain ⟨si, rfl⟩ := hsi
  obtain ⟨eo, rfl⟩ := heo
  obtain ⟨fo, rfl⟩ := hfo
  obtain ⟨igo, rfl⟩ := higo
  obtain ⟨ic, rfl⟩ := hic
  obtain ⟨gc, rfl⟩ := hgc
  obtain ⟨ip, rfl⟩ := hip
  simp [processRecord, processRecordEvents, buildItems_eq_ok]

/-- C3: for a label whose existence check succeeds with a found OID,
`get_lc_ss_oid` performs exactly one check call and zero create calls and
returns the OID text from the check response unchanged, for every gender
argument and every value of the rerun flag. -/
theorem get_lc_ss_oid_existing_idempotent
    (checkResp : Bool → CheckResp) (createResp : CreateResp)
    (sid : String) (lbl gen : PyVal) (today : String) (rerun : Bool)
    (h : (checkResp rerun).result = "Success") :
    get_lc_ss_oid checkResp createResp sid lbl gen today rerun
        = ((checkResp rerun).oidText, [Ev.check sid lbl]) ∧
    countCheck (get_lc_ss_oid checkResp createResp sid lbl gen today rerun).2 = 1 ∧
    countCreate (get_lc_ss_oid checkResp createResp sid lbl gen today rerun).2 = 0 := by
  rw [get_lc_ss_oid]
  simp [h, countCheck, countCreate]

/-- Witness for C3 at a concrete environment. -/
theorem get_lc_ss_oid_existing_idempotent_witness :
    ((fun _ => checkYes) true).result = "Success" ∧
    (get_lc_ss_oid (fun _ => checkYes) createNo "S1" (PyVal.vStr "P1")
        (PyVal.vInt 2) "2026-10-12" true
        = ("SS_OK", [Ev.check "S1" (PyVal.vStr "P1")]) ∧
     countCheck (get_lc_ss_oid (fun _ => checkYes) createNo "S1" (PyVal.vStr "P1")
        (PyVal.vInt 2) "2026-10-12" true).2 = 1 ∧
     countCreate (get_lc_ss_oid (fun _ => checkYes) createNo "S1" (PyVal.vStr "P1")
        (PyVal.vInt 2) "2026-10-12" true).2 = 0) :=
  ⟨rfl, get_lc_ss_oid_existing_idempotent _ _ _ _ _ _ _ rfl⟩

/-- C4: for a label with no existing entity and `rerun = false` the call
sequence is check, create, check; the OID newly visible at the second check
is returned, the empty string when the second check still fails, and the
empty string without a second check when the create fails.  The gender
submitted at create time is "m" for numeric 1, "f" for numeric 2, the raw
value otherwise, and the create request carries today's date.  No input
produces more than one create call or more than two check calls. -/
theorem get_lc_ss_oid_create_path
    (checkResp : Bool → CheckResp) (createResp : CreateResp)
    (sid : String) (lbl gen : PyVal) (today : String)
    (h1 : (checkResp false).result ≠ "Success") :
    (createResp.result = "Success" → (checkResp true).result = "Success" →
       get_lc_ss_oid checkResp createResp sid lbl gen today false
         = ((checkResp true).oidText,
            [Ev.check sid lbl, Ev.create sid lbl (normGender gen) today,
             Ev.check sid lbl])) ∧
    (createResp.result = "Success" → (checkResp true).result ≠ "Success" →
       get_lc_ss_oid checkResp createResp sid lbl gen today false
         = ("", [Ev.check sid lbl, Ev.create sid lbl (normGender gen) today,
                 Ev.check sid lbl])) ∧
    (createResp.result ≠ "Success" →
       get_lc_ss_oid checkResp createResp sid lbl gen today false
         = ("", [Ev.check sid lbl, Ev.create sid lbl (normGender gen) today])) ∧
    normGender (PyVal.vInt 1) = PyVal.vStr "m" ∧
    normGender (PyVal.vInt 2) = PyVal.vStr "f" ∧
    (∀ v : PyVal, v ≠ PyVal.vInt 1 → v ≠ PyVal.vInt 2 → normGender v = v) ∧
    (∀ (cR : Bool → CheckResp) (crR : CreateResp) (r : Bool),
       countCreate (get_lc_ss_oid cR crR sid lbl gen today r).2 ≤ 1 ∧
       countCheck (get_lc_ss_oid cR crR sid lbl gen today r).2 ≤ 2) := by
  refine ⟨?_, ?_, ?_, rfl, rfl, ?_, ?_⟩
  · intro hc h2
    rw [get_lc_ss_oid]
    simp only [h1, if_false, dif_pos rfl, hc, if_true]
    rw [get_lc_ss_oid]
    simp [h1, hc, h2]
  · intro hc h2
    rw [get_lc_ss_oid]
    simp only [h1, if_false, dif_pos rfl, hc, if_true]
    rw [get_lc_ss_oid]
    simp [h1, hc, h2]
  · intro hc
    rw [get_lc_ss_oid]
    simp [h1, hc]
  · intro v hv1 hv2
    simp [normGender, hv1, hv2]
  · intro cR crR r
    cases r with
    | true =>
      by_cases h : (cR true).result = "Success" <;>
        simp [get_lc_ss_oid, h, countCheck, countCreate]
    | false =>
      by_cases h : (cR false).result = "Success"
      · simp [get_lc_ss_oid, h, countCheck, countCreate]
      · by_cases h2 : crR.result = "Success"
        · by_cases h3 : (cR true).result = "Success" <;>
            simp [get_lc_ss_oid, h, h2, h3, countCheck, countCreate,
              List.countP_cons]
        · simp [get_lc_ss_oid, h, h2, countCheck, countCreate, List.countP_cons]

/-- Witness for C4 at a concrete environment whose create succeeds and whose
second check exposes the OID. -/
theorem get_lc_ss_oid_create_path_witness :
    ((fun b => cond b checkYes checkNo) false).result ≠ "Success" ∧
    (((⟨"Success", ""⟩ : CreateResp).result = "Success" →
       ((fun b => cond b checkYes checkNo) true).result = "Success" →
       get_lc_ss_oid (fun b => cond b checkYes checkNo) ⟨"Success", ""⟩
           "S1" (PyVal.vStr "P1") (PyVal.vInt 1) "2026-10-12" false
         = ("SS_OK",
            [Ev.check "S1" (PyVal.vStr "P1"),
             Ev.create "S1" (PyVal.vStr "P1") (normGender (PyVal.vInt 1)) "2026-10-12",
             Ev.check "S1" (PyVal.vStr "P1")]))) :=
  ⟨by decide,
   (get_lc_ss_oid_create_path (fun b => cond b checkYes checkNo)
      ⟨"Success", ""⟩ "S1" (PyVal.vStr "P1") (PyVal.vInt 1) "2026-10-12"
      (by decide)).1⟩

/-- C1 (amended): interpretation of a submission response in the subject
loop, where the success indicator is the FIRST result element's text
containing "Success" (the source only consults `result[0].text`): on a
first-result success nothing is appended to the failure log and the loop
continues with the remaining records; otherwise, with at least one error
element present, the label/(first error text) pair is appended and the loop
continues; with no error element either, the run terminates immediately,
processing none of the remaining records. -/
theorem response_interpretation_amended
    (g : Globals) (today : String) (unidec : String → String) (cols : List String)
    (renvs : Nat → RecordEnv) (idx : Nat) (row : RowData) (rest : List RowData)
    (hset : allSetB g = true) :
    (∀ r0 rs, (renvs idx).submitResults = r0 :: rs → pyInStr "Success" r0 = true →
       runRecords g today unidec cols renvs idx (row :: rest) =
         ⟨(runRecords g today unidec cols renvs (idx + 1) rest).failed,
          processRecordEvents g today unidec cols row (renvs idx) ++
            (runRecords g today unidec cols renvs (idx + 1) rest).events,
          (runRecords g today unidec cols renvs (idx + 1) rest).out⟩) ∧
    ((∀ r0 rs, (renvs idx).submitResults = r0 :: rs → pyInStr "Success" r0 = false) →
       (∀ e es, (renvs idx).submitErrors = e :: es →
          runRecords g today unidec cols renvs idx (row :: rest) =
            ⟨(rowGetPy row (g.identifier_colname.getD ""), e) ::
               (runRecords g today unidec cols renvs (idx + 1) rest).failed,
             processRecordEvents g today unidec cols row (renvs idx) ++
               (runRecords g today unidec cols renvs (idx + 1) rest).events,
             (runRecords g today unidec cols renvs (idx + 1) rest).out⟩) ∧
       ((renvs idx).submitErrors = [] →
          runRecords g today unidec cols renvs idx (row :: rest) =
            ⟨[], processRecordEvents g today unidec cols row (renvs idx),
             LoopOut.abortedRun⟩)) := by
  have hpr := processRecord_allSet g today unidec cols row (renvs idx) hset
  refine ⟨?_, ?_⟩
  · intro r0 rs hres hsucc
    simp only [runRecords, hpr, interpretResponse, hres, hsucc, if_true]
  · intro hfail
    have hint : ∀ e es, (renvs idx).submitErrors = e :: es →
        interpretResponse (renvs idx).submitResults (renvs idx).submitErrors =
          RecStatus.failedRec e := by
      intro e es herr
      cases hres : (renvs idx).submitResults with
      | nil => simp [interpretResponse, interpretErrors, herr]
      | cons r0 rs =>
        have := hfail r0 rs hres
        simp [interpretResponse, interpretErrors, herr, this]
    have hintv : (renvs idx).submitErrors = [] →
        interpretResponse (renvs idx).submitResults (renvs idx).submitErrors =
          RecStatus.protocolViolation := by
      intro herr
      cases hres : (renvs idx).submitResults with
      | nil => simp [interpretResponse, interpretErrors, herr]
      | cons r0 rs =>
        have := hfail r0 rs hres
        simp [interpretResponse, interpretErrors, herr, this]
    refine ⟨?_, ?_⟩
    · intro e es herr
      simp only [runRecords, hpr, hint e es herr]
    · intro herr
      simp only [runRecords, hpr, hintv herr]

/-- Witness for the amended C1 on a concrete one-record batch with a
first-result success. -/
theorem response_interpretation_amended_witness :
    allSetB gW = true ∧
    runRecords gW "D" id ["id", "gender"] (fun _ => renvOkW) 0 [rW1] =
      ⟨(runRecords gW "D" id ["id", "gender"] (fun _ => renvOkW) 1 []).failed,
       processRecordEvents gW "D" id ["id", "gender"] rW1 renvOkW ++
         (runRecords gW "D" id ["id", "gender"] (fun _ => renvOkW) 1 []).events,
       (runRecords gW "D" id ["id", "gender"] (fun _ => renvOkW) 1 []).out⟩ :=
  ⟨by decide,
   (response_interpretation_amended gW "D" id ["id", "gender"]
      (fun _ => renvOkW) 0 rW1 [] (by decide)).1 "Success" [] rfl (by decide)⟩

/-- C1 counterexample: a submission response whose body does contain a
result element with "Success" in its text (so the claim's success indicator
is present), but not as the first result element and with no error element:
the source then calls `sys.exit(1)` instead of logging a success and
continuing, and the second record of the batch is never processed. -/
theorem response_interpretation_counterexample :
    claimSuccessIndicator (envWneither.renvs 0).submitResults = true ∧
    upload_to_lc gW cfgW envWneither =
      (BatchResult.exitCode 1,
       Ev.sparqlQuery "Q" ::
         processRecordEvents gW "D" id ["id", "gender"] rW1 renvNeitherW) := by
  constructor
  · decide
  · simp only [upload_to_lc, runRecords, processRecord, processRecordEvents,
      get_lc_ss_oid_closed, gW, cfgW, envWneither, rW1, rW2, renvNeitherW,
      appRename, interpretResponse, interpretErrors, rowGetPy, checkYes,
      checkNo, createNo, buildItems_eq_ok]
    decide

/-- C2 counterexample: with the execution gate disabled the source calls
`sys.exit(0)` (line 177), an exit status of zero, so the claimed non-zero
exit status is false at this concrete input. -/
theorem exit_gate_counterexample :
    upload_to_lc gW cfgWoff envW1 = (BatchResult.exitCode 0, []) ∧
    exitsWithNonZero (upload_to_lc gW cfgWoff envW1).1 = false := by
  constructor <;> decide

/-- C2 (amended): with the gate disabled `upload_to_lc` terminates
immediately with exit status 0, making no remote call and processing no
record; with the gate enabled and a query returning zero rows it terminates
immediately with exit status 1 before any Libre Clinica call is made (the
trace holds only the query event) and processes no record. -/
theorem exit_gate_and_empty_amended (g : Globals) (config : LCConfig)
    (env : BatchEnv) :
    (config.perform_query = false →
       upload_to_lc g config env = (BatchResult.exitCode 0, [])) ∧
    (config.perform_query = true → ∀ q, g.query = some q →
       env.df.rows.length = 0 →
       upload_to_lc g config env = (BatchResult.exitCode 1, [Ev.sparqlQuery q])) := by
  constructor
  · intro h
    simp [upload_to_lc, h]
  · intro h q hq hlen
    simp [upload_to_lc, h, hq, hlen]

/-- Witness for the amended C2 at concrete configurations. -/
theorem exit_gate_and_empty_amended_witness :
    cfgWoff.perform_query = false ∧ cfgW.perform_query = true ∧
    gW.query = some "Q" ∧ envWempty.df.rows.length = 0 ∧
    upload_to_lc gW cfgWoff envW1 = (BatchResult.exitCode 0, []) ∧
    upload_to_lc gW cfgW envWempty = (BatchResult.exitCode 1, [Ev.sparqlQuery "Q"]) :=
  ⟨rfl, rfl, rfl, rfl,
   (exit_gate_and_empty_amended gW cfgWoff envW1).1 rfl,
   (exit_gate_and_empty_amended gW cfgW envWempty).2 rfl "Q" rfl rfl⟩

/-- C5: for a non-empty query result the column dtypes are decided from the
first binding row only; a first-row `uri` binding makes the whole column
categorical (every cell of the column is coerced to the categorical type,
whatever later rows' binding kinds are); a first-row `literal` or
`typed-literal` binding makes the column Int64 for an integer datatype
(`xsd:int`/`xsd:integer`), Float64 for the floating-point datatype
(`xsd:double`), categorical for `xsd:string`, and leaves it as free text for
any other datatype; an empty result gets no type inference at all. -/
theorem type_inference_first_row_only
    (iC : String → Option Int) (fC : String → Option Rat) :
    (∀ vars b1 rest rest',
       (get_sparql_dataframe iC fC ⟨vars, b1 :: rest⟩).colTypes =
         (get_sparql_dataframe iC fC ⟨vars, b1 :: rest'⟩).colTypes) ∧
    (∀ vars b1 rest,
       (get_sparql_dataframe iC fC ⟨vars, b1 :: rest⟩).colTypes =
         vars.map (colTypeOfFirst b1)) ∧
    (∀ (vars : List String) (b1 : SparqlRow) rest i c, vars[i]? = some c →
       bindingType b1 c = some "uri" →
         (get_sparql_dataframe iC fC ⟨vars, b1 :: rest⟩).colTypes[i]? =
           some ColType.categorical ∧
         (∀ j row, (b1 :: rest)[j]? = some row →
            cellAt (get_sparql_dataframe iC fC ⟨vars, b1 :: rest⟩) j i =
              some (CellVal.cat (bindingValue row c)))) ∧
    (∀ (b1 : SparqlRow) c,
       (bindingType b1 c = some "literal" ∨ bindingType b1 c = some "typed-literal") →
       ((bindingDatatype b1 c = some xsdInt ∨ bindingDatatype b1 c = some xsdInteger) →
          colTypeOfFirst b1 c = ColType.int64) ∧
       (bindingDatatype b1 c = some xsdDouble → colTypeOfFirst b1 c = ColType.float64) ∧
       (bindingDatatype b1 c = some xsdString → colTypeOfFirst b1 c = ColType.categorical) ∧
       (bindingDatatype b1 c ≠ some xsdInt → bindingDatatype b1 c ≠ some xsdInteger →
        bindingDatatype b1 c ≠ some xsdDouble → bindingDatatype b1 c ≠ some xsdString →
          colTypeOfFirst b1 c = ColType.text)) ∧
    (∀ vars, get_sparql_dataframe iC fC ⟨vars, []⟩ =
       ⟨vars, vars.map (fun _ => ColType.text), []⟩) := by
  refine ⟨fun _ _ _ _ => rfl, fun _ _ _ => rfl, ?_, ?_, fun _ => rfl⟩
  · intro vars b1 rest i c hc hu
    constructor
    · simp [get_sparql_dataframe, List.getElem?_map, hc, colTypeOfFirst,
        inferColType, hu]
    · intro j row hrow
      simp only [cellAt, get_sparql_dataframe]
      rw [List.getElem?_map, hrow]
      simp only [Option.map_some', Option.some_bind]
      rw [List.getElem?_map, hc]
      simp [typeCell, colTypeOfFirst, inferColType, hu]
  · intro b1 c hlit
    refine ⟨?_, ?_, ?_, ?_⟩
    · rintro (hd | hd) <;> rcases hlit with h | h <;>
        simp [colTypeOfFirst, inferColType, h, hd, xsdInt, xsdInteger]
    · intro hd
      rcases hlit with h | h <;>
        simp [colTypeOfFirst, inferColType, h, hd, xsdInt, xsdInteger, xsdDouble]
    · intro hd
      rcases hlit with h | h <;>
        simp [colTypeOfFirst, inferColType, h, hd, xsdInt, xsdInteger,
          xsdDouble, xsdString]
    · intro h1 h2 h3 h4
      rcases hlit with h | h <;>
        simp [colTypeOfFirst, inferColType, h, h1, h2, h3, h4]

/-- Witness for C5: in `resW` the second column's first-row binding is a
uri, so the column is categorical and even the second row's typed-literal
cell is coerced to the categorical type. -/
theorem type_inference_first_row_only_witness :
    (["a", "b", "c"] : List String)[1]? = some "b" ∧
    bindingType resWrow1 "b" = some "uri" ∧
    (get_sparql_dataframe pyIntCast (fun _ => none) resW).colTypes[1]? =
      some ColType.categorical ∧
    cellAt (get_sparql_dataframe pyIntCast (fun _ => none) resW) 1 1 =
      some (CellVal.cat (bindingValue resWrow2 "b")) := by
  have h := ((type_inference_first_row_only pyIntCast (fun _ => none)).2.2.1
    ["a", "b", "c"] resWrow1 [resWrow2] 1 "b" rfl (by decide))
  exact ⟨rfl, by decide, h.1, h.2 1 resWrow2 rfl⟩

/-- C6: `convert` turns an absent value into the missing marker, turns a
parse failure into the missing marker (never an exception: the function is
total, and never a silent 0: any produced value comes from a successful
parse of the cell's own string), and is exactly the per-value coercion
applied to every cell of a column inferred as integer or float. -/
theorem convert_missing_on_failure :
    (∀ (α : Type) (cast : String → Option α), convert cast none = none) ∧
    (∀ (α : Type) (cast : String → Option α) (s : String),
       cast s = none → convert cast (some s) = none) ∧
    (∀ (α : Type) (cast : String → Option α) (v : Option String) (z : α),
       convert cast v = some z → ∃ s, v = some s ∧ cast s = some z) ∧
    (∀ s : String, pyIntCast s = none →
       convert pyIntCast (some s) = none ∧
       convert pyIntCast (some s) ≠ some 0) ∧
    (∀ (iC : String → Option Int) (fC : String → Option Rat)
       (vars : List String) (b1 : SparqlRow) rest i c j row,
       vars[i]? = some c → (b1 :: rest)[j]? = some row →
       (colTypeOfFirst b1 c = ColType.int64 →
          cellAt (get_sparql_dataframe iC fC ⟨vars, b1 :: rest⟩) j i =
            some (CellVal.int64 (convert iC (bindingValue row c)))) ∧
       (colTypeOfFirst b1 c = ColType.float64 →
          cellAt (get_sparql_dataframe iC fC ⟨vars, b1 :: rest⟩) j i =
            some (CellVal.float64 (convert fC (bindingValue row c))))) := by
  refine ⟨fun _ _ => rfl, ?_, ?_, ?_, ?_⟩
  · intro α cast s h
    simp [convert, h]
  · intro α cast v z h
    cases v with
    | none => simp [convert] at h
    | some s => exact ⟨s, rfl, h⟩
  · intro s h
    refine ⟨by simp [convert, h], by simp [convert, h]⟩
  · intro iC fC vars b1 rest i c j row hc hrow
    constructor <;> intro ht <;>
      (symm
       simp only [cellAt, get_sparql_dataframe]
       rw [List.getElem?_map, hrow]
       simp only [Option.map_some', Option.some_bind]
       rw [List.getElem?_map, hc]
       simp [typeCell, ht])

/-- Witness for C6: the non-numeric string "12.5" of an integer-typed cell
coerces to the missing marker, not to an exception and not to 0. -/
theorem convert_missing_on_failure_witness :
    pyIntCast "12.5" = none ∧
    (convert pyIntCast (some "12.5") = none ∧
     convert pyIntCast (some "12.5") ≠ some 0) :=
  ⟨by decide, convert_missing_on_failure.2.2.2.1 "12.5" (by decide)⟩

/-- Every character produced by the unidecode model is ASCII when the
transliteration table is. -/
theorem mem_unidecodeChars (tr : Char → String)
    (htr : ∀ c d, d ∈ (tr c).data → d.toNat ≤ 127) :
    ∀ (l : List Char) (d : Char), d ∈ unidecodeChars tr l → d.toNat ≤ 127 := by
  intro l
  induction l with
  | nil =>
    intro d hd
    simp [unidecodeChars] at hd
  | cons c cs ih =>
    intro d hd
    simp only [unidecodeChars, List.mem_append] at hd
    rcases hd with hd | hd
    · by_cases hc : c.toNat ≤ 127
      · simp [hc] at hd
        subst hd
        exact hc
      · simp [hc] at hd
        exact htr c d hd
    · exact ih d hd

/-- C7: a text field value embedded in the upload payload is passed through
the unidecode transliteration exactly when it contains a character with code
point above 127 — the transliterated value replaces every such character by
the table's ASCII transliteration, so the embedded value is pure ASCII —
while a value containing only code points 0–127 passes into the payload
unchanged (the item entry carries the prefixed name and exactly this
value). -/
theorem text_transliteration
    (tr : Char → String) (htr : ∀ c d, d ∈ (tr c).data → d.toNat ≤ 127) :
    (∀ s : String, (∀ c ∈ s.data, c.toNat ≤ 127) →
       renderVal (unidecodeModel tr) (PyVal.vStr s) = s) ∧
    (∀ s : String, s.data.any (fun c => 127 < c.toNat) = true →
       renderVal (unidecodeModel tr) (PyVal.vStr s) = unidecodeModel tr s ∧
       (∀ d ∈ (renderVal (unidecodeModel tr) (PyVal.vStr s)).data,
          d.toNat ≤ 127)) ∧
    (∀ (idc pref name s : String) (row : RowData), name ≠ idc →
       rowGetPy row name = PyVal.vStr s →
       buildItemsOk idc pref (unidecodeModel tr) row [name] =
         [(pref ++ name, renderVal (unidecodeModel tr) (PyVal.vStr s))]) := by
  refine ⟨?_, ?_, ?_⟩
  · intro s h
    have hfalse : s.data.any (fun c => 127 < c.toNat) = false := by
      rw [List.any_eq_false]
      intro c hc
      simp only [decide_eq_true_eq, not_lt]
      exact h c hc
    simp [renderVal, processedText, hfalse]
  · intro s h
    refine ⟨by simp [renderVal, processedText, h], ?_⟩
    intro d hd
    refine mem_unidecodeChars tr htr s.data d ?_
    simpa [renderVal, processedText, h, unidecodeModel] using hd
  · intro idc pref name s row hne hget
    simp [buildItemsOk, hne, hget, renderVal]

/-- Witness for C7 at a concrete transliteration table and values. -/
theorem text_transliteration_witness :
    (∀ c d, d ∈ ((fun _ : Char => "e") c).data → d.toNat ≤ 127) ∧
    renderVal (unidecodeModel (fun _ : Char => "e")) (PyVal.vStr "hello") = "hello" ∧
    (renderVal (unidecodeModel (fun _ : Char => "e")) (PyVal.vStr "héllo") =
       unidecodeModel (fun _ : Char => "e") "héllo" ∧
     (∀ d ∈ (renderVal (unidecodeModel (fun _ : Char => "e"))
               (PyVal.vStr "héllo")).data, d.toNat ≤ 127)) := by
  have htr : ∀ c d, d ∈ ((fun _ : Char => "e") c).data → d.toNat ≤ 127 := by
    intro c d hd
    simp at hd
    subst hd
    decide
  exact ⟨htr,
    (text_transliteration _ htr).1 "hello" (by decide),
    (text_transliteration _ htr).2.1 "héllo" (by decide)⟩

/-- The empty rename mapping leaves a column name unchanged. -/
theorem appRename_nil (c : String) : appRename [] c = c := rfl

/-- The empty rename mapping leaves the column list unchanged. -/
theorem map_appRename_nil (l : List String) : l.map (appRename []) = l := by
  induction l with
  | nil => rfl
  | cons c rest ih => simp [appRename_nil, ih]

/-- The empty rename mapping leaves the rows unchanged. -/
theorem rowmap_appRename_nil (rows : List RowData) :
    rows.map (fun r => r.map (fun kv => (appRename [] kv.1, kv.2))) = rows := by
  simp [appRename_nil, Prod.mk.eta]

/-- The empty rename mapping leaves one row unchanged. -/
theorem rowmap1_appRename_nil (r : RowData) :
    List.map (fun kv => (appRename [] kv.1, kv.2)) r = r := by
  simp [appRename_nil, Prod.mk.eta]

/-- C8: per-record failures never abort the batch: whenever every record's
submission response carries a success or error marker, the subject loop
completes (first part).  In a three-record batch whose second record hits an
identity-create failure (resolver returns the empty string) and a recognized
error response while records 1 and 3 succeed, the run completes, the failure
log holds exactly one entry naming record 2's label, the trace decomposes
into per-record blocks each computed from that record's own row and remote
environment alone, and the final summary reports 3 expected and 1 failed
(second part). -/
theorem batch_partial_failure_tolerance :
    (∀ (g : Globals) (today : String) (unidec : String → String)
       (cols : List String) (renvs : Nat → RecordEnv) (idx : Nat)
       (rows : List RowData), allSetB g = true →
       (∀ k, k < rows.length →
          interpretResponse (renvs (idx + k)).submitResults
            (renvs (idx + k)).submitErrors ≠ RecStatus.protocolViolation) →
       (runRecords g today unidec cols renvs idx rows).out = LoopOut.completedLoop) ∧
    (∀ (g : Globals) (config : LCConfig) (env : BatchEnv) (q : String)
       (r1 r2 r3 : RowData) (e2 : String),
       allSetB g = true → config.perform_query = true → g.query = some q →
       config.alternative_item_oids = [] →
       env.df.rows = [r1, r2, r3] →
       interpretResponse (env.renvs 0).submitResults (env.renvs 0).submitErrors =
         RecStatus.success →
       ((env.renvs 1).checkResp false).result ≠ "Success" →
       (env.renvs 1).createResp.result ≠ "Success" →
       interpretResponse (env.renvs 1).submitResults (env.renvs 1).submitErrors =
         RecStatus.failedRec e2 →
       interpretResponse (env.renvs 2).submitResults (env.renvs 2).submitErrors =
         RecStatus.success →
       (get_lc_ss_oid (env.renvs 1).checkResp (env.renvs 1).createResp
          (g.study_identifier.getD "")
          (rowGetPy r2 (g.identifier_colname.getD ""))
          (rowGetPy r2 (g.gender_colname.getD "")) env.today false).1 = "" ∧
       upload_to_lc g config env =
         (BatchResult.summary 3
            [(rowGetPy r2 (g.identifier_colname.getD ""), e2)],
          Ev.sparqlQuery q ::
            (processRecordEvents g env.today env.unidec env.df.cols r1 (env.renvs 0) ++
             (processRecordEvents g env.today env.unidec env.df.cols r2 (env.renvs 1) ++
              processRecordEvents g env.today env.unidec env.df.cols r3 (env.renvs 2))))) := by
  constructor
  · intro g today unidec cols renvs idx rows hset
    induction rows generalizing idx with
    | nil =>
      intro _
      simp [runRecords]
    | cons row rest ih =>
      intro hnv
      have hpr := processRecord_allSet g today unidec cols row (renvs idx) hset
      have h0 := hnv 0 (by simp)
      simp only [Nat.add_zero] at h0
      have hshift : ∀ k, k < rest.length →
          interpretResponse (renvs (idx + 1 + k)).submitResults
            (renvs (idx + 1 + k)).submitErrors ≠ RecStatus.protocolViolation := by
        intro k hk
        have := hnv (k + 1) (by simpa using Nat.succ_lt_succ hk)
        have he : idx + (k + 1) = idx + 1 + k := by omega
        rwa [he] at this
      cases hst : interpretResponse (renvs idx).submitResults
          (renvs idx).submitErrors with
      | success =>
        simp only [runRecords, hpr, hst]
        exact ih (idx + 1) hshift
      | failedRec e =>
        simp only [runRecords, hpr, hst]
        exact ih (idx + 1) hshift
      | protocolViolation => exact absurd hst h0
  · intro g config env q r1 r2 r3 e2 hset hpq hq halt hrows hi1 hc2 hcr2 hi2 hi3
    have hoid : (get_lc_ss_oid (env.renvs 1).checkResp (env.renvs 1).createResp
        (g.study_identifier.getD "") (rowGetPy r2 (g.identifier_colname.getD ""))
        (rowGetPy r2 (g.gender_colname.getD "")) env.today false).1 = "" := by
      rw [get_lc_ss_oid_closed]
      simp [hc2, hcr2]
    refine ⟨hoid, ?_⟩
    have hpr1 := processRecord_allSet g env.today env.unidec env.df.cols r1 (env.renvs 0) hset
    have hpr2 := processRecord_allSet g env.today env.unidec env.df.cols r2 (env.renvs 1) hset
    have hpr3 := processRecord_allSet g env.today env.unidec env.df.cols r3 (env.renvs 2) hset
    simp only [upload_to_lc, hpq, hq, halt, hrows, Bool.not_true, Bool.false_eq_true,
      if_false, map_appRename_nil, rowmap_appRename_nil, rowmap1_appRename_nil]
    simp only [runRecords, hpr1, hpr2, hpr3, hi1, hi2, hi3, rowmap1_appRename_nil,
      map_appRename_nil]
    simp

/-- Witness for C8 on the concrete three-record batch `envW3`. -/
theorem batch_partial_failure_tolerance_witness :
    allSetB gW = true ∧
    (get_lc_ss_oid (envW3.renvs 1).checkResp (envW3.renvs 1).createResp
        (gW.study_identifier.getD "")
        (rowGetPy rW2 (gW.identifier_colname.getD ""))
        (rowGetPy rW2 (gW.gender_colname.getD "")) envW3.today false).1 = "" ∧
    upload_to_lc gW cfgW envW3 =
      (BatchResult.summary 3 [(PyVal.vStr "P2", "err2")],
       Ev.sparqlQuery "Q" ::
         (processRecordEvents gW envW3.today envW3.unidec envW3.df.cols rW1
            (envW3.renvs 0) ++
          (processRecordEvents gW envW3.today envW3.unidec envW3.df.cols rW2
             (envW3.renvs 1) ++
           processRecordEvents gW envW3.today envW3.unidec envW3.df.cols rW3
             (envW3.renvs 2)))) := by
  have h := batch_partial_failure_tolerance.2 gW cfgW envW3 "Q" rW1 rW2 rW3 "err2"
    (by decide) rfl rfl rfl rfl (by decide) (by decide) (by decide) (by decide)
    (by decide)
  exact ⟨by decide, h.1, h.2⟩

/-- C9: `upload_to_lc` reads the module-level globals instead of the
configuration fields of the same names: two configurations differing only in
`query`, `study_oid`, `study_identifier`, `event_oid`, `form_oid`,
`item_group_oid`, `identifier_colname`, `gender_colname` and `item_prefix`
(i.e. agreeing on every other field) produce identical behaviour, outcome
and remote-call trace alike (first part); with those globals unset — as
outside the script's `__main__` block — the run fails with a
name-resolution error before the corresponding step: with `query` unset the
failure precedes the query call (second part), and with `identifier_colname`
unset it hits the first record before any Libre Clinica call (third part). -/
theorem config_field_shadowing :
    (∀ (g : Globals) (env : BatchEnv) (c1 c2 : LCConfig),
       c1.sparql_endpoint = c2.sparql_endpoint →
       c1.lc_endpoint = c2.lc_endpoint →
       c1.lc_user = c2.lc_user →
       c1.lc_password = c2.lc_password →
       c1.alternative_item_oids = c2.alternative_item_oids →
       c1.perform_query = c2.perform_query →
       upload_to_lc g c1 env = upload_to_lc g c2 env) ∧
    (∀ (env : BatchEnv) (config : LCConfig) (g : Globals),
       config.perform_query = true → g.query = none →
       upload_to_lc g config env = (BatchResult.nameError "query", [])) ∧
    (∀ (env : BatchEnv) (config : LCConfig) (g : Globals) (q : String)
       (row : RowData) (rest : List RowData),
       config.perform_query = true → g.query = some q →
       g.identifier_colname = none → env.df.rows = row :: rest →
       upload_to_lc g config env =
         (BatchResult.nameError "identifier_colname", [Ev.sparqlQuery q])) := by
  refine ⟨?_, ?_, ?_⟩
  · intro g env c1 c2 _ _ _ _ h5 h6
    simp only [upload_to_lc, h5, h6]
  · intro env config g hpq hq
    simp [upload_to_lc, hpq, hq]
  · intro env config g q row rest hpq hq hic hrows
    simp [upload_to_lc, hpq, hq, hrows, runRecords, processRecord, hic]

/-- Witness for C9: concrete configurations differing exactly in the nine
shadowed fields behave identically, and a run with unset globals fails with
the name-resolution error on `query`. -/
theorem config_field_shadowing_witness :
    upload_to_lc gW cfgW envW1 = upload_to_lc gW cfgW2 envW1 ∧
    upload_to_lc ⟨none, none, none, none, none, none, none, none, none⟩ cfgW envW1 =
      (BatchResult.nameError "query", []) :=
  ⟨config_field_shadowing.1 gW envW1 cfgW cfgW2 rfl rfl rfl rfl rfl rfl,
   config_field_shadowing.2.1 envW1 cfgW _ rfl rfl⟩

/-- C10: a record whose identity resolution returns the empty string is not
skipped: the scheduling call is still made and the upsert payload is still
built and submitted, with SubjectKey equal to the empty string, after which
the response is interpreted as for any other record. -/
theorem empty_oid_record_still_submitted
    (g : Globals) (today : String) (unidec : String → String)
    (cols : List String) (row : RowData) (renv : RecordEnv)
    (hset : allSetB g = true)
    (hoid : (get_lc_ss_oid renv.checkResp renv.createResp
        (g.study_identifier.getD "")
        (rowGetPy row (g.identifier_colname.getD ""))
        (rowGetPy row (g.gender_colname.getD "")) today false).1 = "") :
    (processRecord g today unidec cols row renv).2 =
      (get_lc_ss_oid renv.checkResp renv.createResp (g.study_identifier.getD "")
         (rowGetPy row (g.identifier_colname.getD ""))
         (rowGetPy row (g.gender_colname.getD "")) today false).2 ++
      [Ev.schedule (g.study_identifier.getD "")
         (rowGetPy row (g.identifier_colname.getD "")) (g.event_oid.getD "")] ++
      [Ev.submit (g.study_oid.getD "") (g.event_oid.getD "") (g.form_oid.getD "")
         (g.item_group_oid.getD "") ""
         (buildItemsOk (g.identifier_colname.getD "") (g.item_pref.getD "")
            unidec row cols)
         (rowGetPy row (g.identifier_colname.getD ""))] ∧
    (processRecord g today unidec cols row renv).1 =
      StepRes.ok (rowGetPy row (g.identifier_colname.getD ""))
        (interpretResponse renv.submitResults renv.submitErrors) := by
  have hpr := processRecord_allSet g today unidec cols row renv hset
  constructor
  · rw [hpr]
    simp only [processRecordEvents]
    rw [hoid]
  · rw [hpr]

/-- Witness for C10 on a concrete record whose create fails, so the
resolver yields the empty string. -/
theorem empty_oid_record_still_submitted_witness :
    allSetB gW = true ∧
    (get_lc_ss_oid renvFailW.checkResp renvFailW.createResp
        (gW.study_identifier.getD "")
        (rowGetPy rW2 (gW.identifier_colname.getD ""))
        (rowGetPy rW2 (gW.gender_colname.getD "")) "D" false).1 = "" ∧
    ((processRecord gW "D" id ["id", "gender"] rW2 renvFailW).2 =
      (get_lc_ss_oid renvFailW.checkResp renvFailW.createResp
         (gW.study_identifier.getD "")
         (rowGetPy rW2 (gW.identifier_colname.getD ""))
         (rowGetPy rW2 (gW.gender_colname.getD "")) "D" false).2 ++
      [Ev.schedule (gW.study_identifier.getD "")
         (rowGetPy rW2 (gW.identifier_colname.getD "")) (gW.event_oid.getD "")] ++
      [Ev.submit (gW.study_oid.getD "") (gW.event_oid.getD "") (gW.form_oid.getD "")
         (gW.item_group_oid.getD "") ""
         (buildItemsOk (gW.identifier_colname.getD "") (gW.item_pref.getD "")
            id rW2 ["id", "gender"])
         (rowGetPy rW2 (gW.identifier_colname.getD ""))] ∧
     (processRecord gW "D" id ["id", "gender"] rW2 renvFailW).1 =
       StepRes.ok (rowGetPy rW2 (gW.identifier_colname.getD ""))
         (interpretResponse renvFailW.submitResults renvFailW.submitErrors)) := by
  have hoid : (get_lc_ss_oid renvFailW.checkResp renvFailW.createResp
      (gW.study_identifier.getD "")
      (rowGetPy rW2 (gW.identifier_colname.getD ""))
      (rowGetPy rW2 (gW.gender_colname.getD "")) "D" false).1 = "" := by
    rw [get_lc_ss_oid_closed]
    decide
  exact ⟨by decide, hoid,
    empty_oid_record_still_submitted gW "D" id ["id", "gender"] rW2 renvFailW
      (by decide) hoid⟩
